import Mathlib

/-!
Shallow embedding of the market-dashboard backend (src/app.py) and proofs
about its observable behaviour.  Network fetches and HTML parsing are
abstracted into explicit page data passed to each scraper: an
`Except.error` value models an exception raised during fetch or parse, and
an `Except.ok` value carries the elements the fixed CSS selectors would
extract, in document order.
-/

set_option linter.unusedVariables false

/-- Check whether the list given first is an initial segment of the list
given second. -/
def listStartsWith : List Char → List Char → Bool
  | [], _ => true
  | _ :: _, [] => false
  | a :: as, b :: bs => a == b && listStartsWith as bs

/-- Check whether the list given first occurs as a contiguous segment of the
list given second. -/
def listContainsSub : List Char → List Char → Bool
  | needle, [] => listStartsWith needle []
  | needle, b :: bs => listStartsWith needle (b :: bs) || listContainsSub needle bs

/-- String containment: `strContains hay needle` is true when `needle`
occurs as a contiguous substring of `hay`. -/
def strContains (hay needle : String) : Bool :=
  listContainsSub needle.data hay.data

/-- The decimal digit character for `n < 10`. -/
def digitChar (n : Nat) : Char := Char.ofNat (48 + n)

/-- Two-character zero-padded decimal rendering of `n` (faithful to Python
`%02d` for `n < 100`, the range in which it is used). -/
def toDigitsL2 (n : Nat) : List Char :=
  [digitChar (n / 10 % 10), digitChar (n % 10)]

/-- Four-character zero-padded decimal rendering of `n` (faithful to Python
`%04d` for `n < 10000`). -/
def toDigitsL4 (n : Nat) : List Char :=
  [digitChar (n / 1000 % 10), digitChar (n / 100 % 10),
   digitChar (n / 10 % 10), digitChar (n % 10)]

/-- Six-character zero-padded decimal rendering of `n` (faithful to Python
`%06d` for `n < 1000000`). -/
def toDigitsL6 (n : Nat) : List Char :=
  [digitChar (n / 100000 % 10), digitChar (n / 10000 % 10),
   digitChar (n / 1000 % 10), digitChar (n / 100 % 10),
   digitChar (n / 10 % 10), digitChar (n % 10)]

/-- Embedding of the Python format expression `f"LBRACEq:.2fRBRACE"`: the
value rendered with exactly two digits after the decimal point, the
hundredths rounded to nearest with ties to even, the convention Python uses
when formatting a float with a fixed number of decimals.  Computed on the
numerator and denominator directly. -/
def formatTwoDec (q : Rat) : String :=
  let sign : String := if q.num < 0 then "-" else ""
  let n : Nat := q.num.natAbs * 100
  let d : Nat := q.den
  let quo : Nat := n / d
  let rem : Nat := n % d
  let cents : Nat :=
    if 2 * rem < d then quo
    else if d < 2 * rem then quo + 1
    else if quo % 2 = 0 then quo else quo + 1
  sign ++ toString (cents / 100) ++ "." ++ String.mk (toDigitsL2 (cents % 100))

/-- The Python abs function on a rational. -/
def ratAbs (q : Rat) : Rat := if q.num < 0 then -q else q

/-- Fractional decimal digits of the reduced fraction `r / d`, produced by
long division; `fuel` bounds the digit count and is ample for every value
this development renders. -/
def fracDigitsAux : Nat → Nat → Nat → List Char
  | 0, _, _ => []
  | _ + 1, 0, _ => []
  | fuel + 1, r, d => digitChar (r * 10 / d) :: fracDigitsAux fuel (r * 10 % d) d

/-- Decimal rendering of a rational, as the JSON serializer renders the
floats appearing in this development (values with a short exact decimal
expansion; an integral value gains a trailing `.0` as Python repr does). -/
def renderRat (q : Rat) : String :=
  let sign : String := if q.num < 0 then "-" else ""
  let n : Nat := q.num.natAbs
  let d : Nat := q.den
  let frac := fracDigitsAux 30 (n % d) d
  let fracS := if frac = [] then "0" else String.mk frac
  sign ++ toString (n / d) ++ "." ++ fracS

/-- Embedding of the Python str.strip() call: remove leading and trailing
whitespace characters. -/
def pyStrip (s : String) : String :=
  String.mk (((s.data.dropWhile Char.isWhitespace).reverse.dropWhile
    Char.isWhitespace).reverse)

/-- One parseable element extracted from a fetched page: the element text as
`get_text()` returns it, and the `href` attribute of the associated anchor
when such an anchor carrying an `href` attribute is present. -/
structure Article where
  text : String
  href : Option String
deriving DecidableEq, Repr

/-- Result of one scraper call that found at least one driver. -/
structure SourceResult where
  drivers : List String
  sources : List String
deriving DecidableEq, Repr

/-- Citation string built by every scraper: the first 50 characters of the
title, an ellipsis, and the link. -/
def cite (title link : String) : String :=
  title.take 50 ++ "... - " ++ link

/-- Extraction loop of `scrape_yahoo_finance_news`: walk the first three
`h3` elements; a trimmed non-empty title becomes a driver, and when the
parent anchor supplied an `href` the absolute link joins the sources. -/
def yahooExtract (arts : List Article) : List String × List String :=
  (arts.take 3).foldl
    (fun acc a =>
      let title := pyStrip a.text
      let link := match a.href with
        | some h => "https://finance.yahoo.com" ++ h
        | none => ""
      if title ≠ "" then
        (acc.1 ++ [title], if link ≠ "" then acc.2 ++ [cite title link] else acc.2)
      else acc)
    ([], [])

/-- Embedding of `scrape_yahoo_finance_news`.  `fetch` abstracts the HTTP
GET plus the BeautifulSoup selection of `h3` elements of class `Mb(5px)`;
every exception inside the body is caught and yields `none`, and so does an
extraction with zero drivers. -/
def scrape_yahoo_finance_news (symbol name : String)
    (fetch : Except String (List Article)) : Option SourceResult :=
  match fetch with
  | .error _ => none
  | .ok arts =>
      let res := yahooExtract arts
      if res.1 = [] then none else some { drivers := res.1, sources := res.2 }

/-- A candidate `article` element on the news-aggregator search page:
`titleElem` is the anchor of class `JtKRv` inside it, when present. -/
structure GArticle where
  titleElem : Option Article
deriving DecidableEq, Repr

/-- Extraction loop of `scrape_google_news`: walk the first three `article`
elements; only those with a title anchor contribute, the relative link loses
its leading dot before the host is prepended. -/
def googleExtract (arts : List GArticle) : List String × List String :=
  (arts.take 3).foldl
    (fun acc ga =>
      match ga.titleElem with
      | none => acc
      | some t =>
          let title := pyStrip t.text
          let link := match t.href with
            | some h => "https://news.google.com" ++ h.drop 1
            | none => ""
          if title ≠ "" then
            (acc.1 ++ [title], if link ≠ "" then acc.2 ++ [cite title link] else acc.2)
          else acc)
    ([], [])

/-- Embedding of `scrape_google_news`. -/
def scrape_google_news (name : String) (change_percent : Rat)
    (fetch : Except String (List GArticle)) : Option SourceResult :=
  match fetch with
  | .error _ => none
  | .ok arts =>
      let res := googleExtract arts
      if res.1 = [] then none else some { drivers := res.1, sources := res.2 }

/-- The parsed ticker-news page: the table of class `fullview-news-outer`
when present, each row carrying its first anchor when it has one. -/
structure FinvizPage where
  newsTable : Option (List (Option Article))
deriving DecidableEq, Repr

/-- Extraction loop of `scrape_finviz_news`: when the news table exists,
walk its first three rows; a row without an anchor contributes nothing, and
the anchor link is used verbatim (empty when the `href` attribute is
absent). -/
def finvizExtract (page : FinvizPage) : List String × List String :=
  match page.newsTable with
  | none => ([], [])
  | some rows =>
      (rows.take 3).foldl
        (fun acc row =>
          match row with
          | none => acc
          | some linkElem =>
              let title := pyStrip linkElem.text
              let link := (linkElem.href).getD ""
              if title ≠ "" then
                (acc.1 ++ [title], if link ≠ "" then acc.2 ++ [cite title link] else acc.2)
              else acc)
        ([], [])

/-- Embedding of `scrape_finviz_news`. -/
def scrape_finviz_news (symbol name : String)
    (fetch : Except String FinvizPage) : Option SourceResult :=
  match fetch with
  | .error _ => none
  | .ok page =>
      let res := finvizExtract page
      if res.1 = [] then none else some { drivers := res.1, sources := res.2 }

/-- Embedding of `list(dict.fromkeys(l))` with `seen` the keys already
inserted: keep the first occurrence of each string, preserving order. -/
def dedupeAux (seen : List String) : List String → List String
  | [] => []
  | x :: xs =>
      if x ∈ seen then dedupeAux seen xs
      else x :: dedupeAux (x :: seen) xs

/-- Order-preserving deduplication, first occurrence wins. -/
def dedupeKeepFirst (l : List String) : List String := dedupeAux [] l

/-- The analysis attached to one instrument of the response. -/
structure AnalysisResult where
  drivers : List String
  sources : List String
  method : String
deriving DecidableEq, Repr

/-- The nondeterministic environment of one aggregator call: the three pages
the scrapers fetch (or the exceptions their fetch or parse raises), plus
`aggExc`, modelling an unexpected exception raised by the aggregation body
itself outside the scraper calls — the path that the outer try/except of
`get_free_news_analysis` converts into a method `error` result. -/
structure ScrapeEnv where
  yahooFetch : Except String (List Article)
  googleFetch : Except String (List GArticle)
  finvizFetch : Except String FinvizPage
  aggExc : Option String

/-- Embedding of `get_free_news_analysis`: call the three scrapers in fixed
order, concatenate, deduplicate keeping first occurrences, truncate drivers
to 3 and sources to 5, fall back to the templated sentences when no driver
was found, and convert an unexpected exception into a method `error`
result.  The `start_date` and `end_date` arguments are accepted and
ignored, as in the source. -/
def get_free_news_analysis (env : ScrapeEnv) (symbol name : String)
    (change_percent : Rat) (start_date end_date : Option String) : AnalysisResult :=
  match env.aggExc with
  | some e =>
      { drivers := ["Unable to fetch news: " ++ e], sources := [], method := "error" }
  | none =>
      let yahoo := scrape_yahoo_finance_news symbol name env.yahooFetch
      let google := scrape_google_news name change_percent env.googleFetch
      let finviz := scrape_finviz_news symbol name env.finvizFetch
      let drivers0 :=
        (match yahoo with | some r => r.drivers | none => []) ++
        (match google with | some r => r.drivers | none => []) ++
        (match finviz with | some r => r.drivers | none => [])
      let sources0 :=
        (match yahoo with | some r => r.sources | none => []) ++
        (match google with | some r => r.sources | none => []) ++
        (match finviz with | some r => r.sources | none => [])
      let drivers := (dedupeKeepFirst drivers0).take 3
      let sources := (dedupeKeepFirst sources0).take 5
      if drivers = [] then
        let direction := if 0 < change_percent then "increased" else "decreased"
        { drivers :=
            [name ++ " " ++ direction ++ " by " ++
               formatTwoDec (ratAbs change_percent) ++ "% during this period.",
             "Check financial news sources for detailed analysis of market conditions.",
             "Consider broader market trends and sector-specific factors."],
          sources :=
            ["Yahoo Finance - https://finance.yahoo.com/quote/" ++ symbol,
             "Google Finance - https://www.google.com/finance/quote/" ++
               (String.mk (symbol.data.filter (fun c => c != '^'))) ++ ":INDEXSP"],
          method := "free_scraping" }
      else
        { drivers := drivers, sources := sources, method := "free_scraping" }

/-- One element of the request symbols array; a field is `none` when the
JSON object lacks the corresponding key. -/
structure SymbolData where
  symbol : Option String
  name : Option String
  changePercent : Option Rat
deriving DecidableEq

/-- The JSON body of a POST to the analyze endpoint; `symbols` is `none`
when the key is missing, in which case the code defaults it to an empty
list. -/
structure AnalyzeRequest where
  symbols : Option (List SymbolData)
  startDate : Option String
  endDate : Option String

/-- One element of the analyses array of a successful response. -/
structure ResponseItem where
  symbol : String
  name : String
  changePercent : Rat
  analysis : AnalysisResult
deriving DecidableEq, Repr

/-- The three response shapes of the analyze endpoint. -/
inductive HttpResponse where
  | ok (analyses : List ResponseItem)
  | clientError (msg : String)
  | serverError (msg : String)
deriving DecidableEq, Repr

/-- HTTP status code of each response shape. -/
def statusOf : HttpResponse → Nat
  | .ok _ => 200
  | .clientError _ => 400
  | .serverError _ => 500

/-- Text of a Python KeyError on key `k`: the key wrapped in single
quotes. -/
def keyErrorText (k : String) : String := "\x27" ++ k ++ "\x27"

/-- The per-instrument loop of `analyze_market`, with `i` the index of the
first remaining instrument (used to address its scrape environment).  A
missing key raises a KeyError that the outer handler turns into a 500, so
the loop aborts and every item built so far is discarded; the keys are read
in the order symbol, name, changePercent. -/
def analyzeLoop (env : Nat → ScrapeEnv) (sd ed : Option String) :
    Nat → List SymbolData → Except String (List ResponseItem)
  | _, [] => .ok []
  | i, s :: rest =>
      match s.symbol with
      | none => .error (keyErrorText "symbol")
      | some sym =>
          match s.name with
          | none => .error (keyErrorText "name")
          | some nm =>
              match s.changePercent with
              | none => .error (keyErrorText "changePercent")
              | some cp =>
                  let analysis := get_free_news_analysis (env i) sym nm cp sd ed
                  match analyzeLoop env sd ed (i + 1) rest with
                  | .error e => .error e
                  | .ok l =>
                      .ok ({ symbol := sym, name := nm, changePercent := cp,
                             analysis := analysis } :: l)

/-- Embedding of the analyze endpoint handler `analyze_market`: default a
missing symbols key to the empty list, reject an empty list with a 400,
otherwise run the per-instrument loop; a raised exception becomes a 500
carrying its text. -/
def analyze_market (env : Nat → ScrapeEnv) (req : AnalyzeRequest) : HttpResponse :=
  let symbols := req.symbols.getD []
  if symbols.isEmpty then .clientError "No symbols provided"
  else
    match analyzeLoop env req.startDate req.endDate 0 symbols with
    | .error e => .serverError e
    | .ok l => .ok l

/-- JSON rendering of a string value (the strings this development renders
contain no character needing an escape). -/
def renderString (s : String) : String := "\"" ++ s ++ "\""

/-- JSON rendering of an array of strings. -/
def renderStrList (l : List String) : String :=
  "[" ++ String.intercalate ", " (l.map renderString) ++ "]"

/-- JSON rendering of one AnalysisResult. -/
def renderAnalysis (a : AnalysisResult) : String :=
  "\x7b\"drivers\": " ++ renderStrList a.drivers ++
    ", \"sources\": " ++ renderStrList a.sources ++
    ", \"method\": " ++ renderString a.method ++ "\x7d"

/-- JSON rendering of one element of the analyses array. -/
def renderItem (it : ResponseItem) : String :=
  "\x7b\"symbol\": " ++ renderString it.symbol ++
    ", \"name\": " ++ renderString it.name ++
    ", \"changePercent\": " ++ renderRat it.changePercent ++
    ", \"analysis\": " ++ renderAnalysis it.analysis ++ "\x7d"

/-- JSON rendering of the whole analyze response body, as jsonify produces
it. -/
def renderResponse : HttpResponse → String
  | .ok l =>
      "\x7b\"analyses\": [" ++ String.intercalate ", " (l.map renderItem) ++ "]\x7d"
  | .clientError m => "\x7b\"error\": " ++ renderString m ++ "\x7d"
  | .serverError m => "\x7b\"error\": " ++ renderString m ++ "\x7d"

/-- A wall-clock instant as held by a Python datetime value; the library
guarantees 1 ≤ month ≤ 12, 1 ≤ day ≤ 31, hour ≤ 23, minute ≤ 59,
second ≤ 59, microsecond ≤ 999999 and a four-digit year. -/
structure PyDateTime where
  year : Nat
  month : Nat
  day : Nat
  hour : Nat
  minute : Nat
  second : Nat
  microsecond : Nat
deriving DecidableEq, Repr

/-- Embedding of datetime isoformat: date and time joined by a T separator,
with a six-digit fractional-second part exactly when the microsecond field
is nonzero. -/
def isoformat (t : PyDateTime) : String :=
  String.mk
    (toDigitsL4 t.year ++ '-' :: toDigitsL2 t.month ++ '-' :: toDigitsL2 t.day ++
     'T' :: toDigitsL2 t.hour ++ ':' :: toDigitsL2 t.minute ++ ':' :: toDigitsL2 t.second ++
     (if t.microsecond = 0 then [] else '.' :: toDigitsL6 t.microsecond))

/-- The body of the health response. -/
structure HealthResponse where
  status : String
  method : String
  sources : List String
  timestamp : String
deriving DecidableEq, Repr

/-- Embedding of `health_check`: a pure function of the process clock; by
construction it performs no network access and always returns the one 200
payload. -/
def health_check (now : PyDateTime) : HealthResponse :=
  { status := "healthy",
    method := "free_scraping",
    sources := ["Yahoo Finance", "Google News", "Finviz"],
    timestamp := isoformat now }

/-- Consume exactly `k` decimal digit characters, returning the rest. -/
def consumeDigits : Nat → List Char → Option (List Char)
  | 0, cs => some cs
  | _ + 1, [] => none
  | k + 1, c :: cs => if c.isDigit then consumeDigits k cs else none

/-- Consume one expected literal character, returning the rest. -/
def consumeLit (x : Char) : List Char → Option (List Char)
  | [] => none
  | c :: cs => if c = x then some cs else none

/-- Accept the optional fractional-second tail: nothing, or a dot followed
by exactly six digits. -/
def isoFracOk : List Char → Bool
  | [] => true
  | c :: cs =>
      if c = '.' then
        match consumeDigits 6 cs with
        | some [] => true
        | _ => false
      else false

/-- Modelled from the spec: a recogniser for ISO-8601 date-time strings of
the shape produced by datetime isoformat (date, T, time, optional
six-digit fraction), used to state that the health timestamp is parseable
as ISO-8601. -/
def isIso8601Like (s : String) : Bool :=
  match (((((((((consumeDigits 4 s.data).bind (consumeLit '-')).bind
      (consumeDigits 2)).bind (consumeLit '-')).bind
      (consumeDigits 2)).bind (consumeLit 'T')).bind
      ((consumeDigits 2))).bind (consumeLit ':')).bind
      (consumeDigits 2)).bind (consumeLit ':') with
  | none => false
  | some rest =>
      match consumeDigits 2 rest with
      | none => false
      | some tail => isoFracOk tail

/-- Scrape environment in which every fetch raises: all scrapers return no
result, so the aggregator takes its fallback path. -/
def envNoNews : ScrapeEnv :=
  { yahooFetch := Except.error "boom",
    googleFetch := Except.error "boom",
    finvizFetch := Except.error "boom",
    aggExc := none }

/-- Scrape environment whose aggregation body raises an unexpected
exception. -/
def envAggFail : ScrapeEnv :=
  { yahooFetch := Except.error "x",
    googleFetch := Except.error "x",
    finvizFetch := Except.error "x",
    aggExc := some "boom" }

/-- Scrape environment in which the first scraper extracts one titled
element that has no anchor, so a driver is produced without any source. -/
def envTitleOnly : ScrapeEnv :=
  { yahooFetch := Except.ok [{ text := "Headline", href := none }],
    googleFetch := Except.error "gfail",
    finvizFetch := Except.error "ffail",
    aggExc := none }

/-- The response item the loop builds for the instrument at index `i` when
all its keys are present. -/
def respItem (env : Nat → ScrapeEnv) (sd ed : Option String)
    (i : Nat) (s : SymbolData) : ResponseItem :=
  { symbol := s.symbol.getD "",
    name := s.name.getD "",
    changePercent := s.changePercent.getD 0,
    analysis := get_free_news_analysis (env i) (s.symbol.getD "")
      (s.name.getD "") (s.changePercent.getD 0) sd ed }

/-- Map with an explicit running index, starting at `i`. -/
def mapFrom {α β : Type} (f : Nat → α → β) : Nat → List α → List β
  | _, [] => []
  | i, a :: rest => f i a :: mapFrom f (i + 1) rest

theorem listStartsWith_append_self (p rest : List Char) :
    listStartsWith p (p ++ rest) = true := by
  induction p with
  | nil => rfl
  | cons a as ih => simp [listStartsWith, ih]

theorem listContainsSub_of_startsWith (n hay : List Char)
    (h : listStartsWith n hay = true) : listContainsSub n hay = true := by
  cases hay with
  | nil => simpa [listContainsSub] using h
  | cons b bs => simp [listContainsSub, h]

theorem listContainsSub_middle (a n b : List Char) :
    listContainsSub n (a ++ (n ++ b)) = true := by
  induction a with
  | nil =>
      simpa using listContainsSub_of_startsWith n (n ++ b) (listStartsWith_append_self n b)
  | cons c cs ih => simp [listContainsSub, ih]

theorem strContains_of_data (hay needle : String) (a b : List Char)
    (h : hay.data = a ++ (needle.data ++ b)) : strContains hay needle = true := by
  rw [strContains, h]
  exact listContainsSub_middle a needle.data b

theorem dedupeAux_sublist (l : List String) : ∀ seen, (dedupeAux seen l).Sublist l := by
  induction l with
  | nil => intro seen; simp [dedupeAux]
  | cons x xs ih =>
      intro seen
      by_cases h : x ∈ seen
      · rw [dedupeAux, if_pos h]
        exact List.Sublist.cons _ (ih seen)
      · rw [dedupeAux, if_neg h]
        exact List.Sublist.cons₂ _ (ih (x :: seen))

theorem mem_dedupeAux (l : List String) :
    ∀ (seen : List String) (x : String), x ∈ dedupeAux seen l ↔ (x ∈ l ∧ x ∉ seen) := by
  induction l with
  | nil => intro seen x; simp [dedupeAux]
  | cons y ys ih =>
      intro seen x
      by_cases h : y ∈ seen
      · rw [dedupeAux, if_pos h, ih]
        constructor
        · rintro ⟨h1, h2⟩
          exact ⟨List.mem_cons_of_mem _ h1, h2⟩
        · rintro ⟨h1, h2⟩
          rcases List.mem_cons.mp h1 with rfl | h1
          · exact absurd h h2
          · exact ⟨h1, h2⟩
      · rw [dedupeAux, if_neg h]
        simp only [List.mem_cons, ih]
        constructor
        · rintro (rfl | ⟨h1, h2⟩)
          · exact ⟨Or.inl rfl, h⟩
          · exact ⟨Or.inr h1, fun hs => h2 (Or.inr hs)⟩
        · rintro ⟨h1, h2⟩
          rcases h1 with rfl | h1
          · exact Or.inl rfl
          · by_cases hxy : x = y
            · exact Or.inl hxy
            · exact Or.inr ⟨h1, fun hs => hs.elim hxy h2⟩

theorem nodup_dedupeAux (l : List String) : ∀ seen, (dedupeAux seen l).Nodup := by
  induction l with
  | nil => intro seen; simp [dedupeAux]
  | cons y ys ih =>
      intro seen
      by_cases h : y ∈ seen
      · rw [dedupeAux, if_pos h]
        exact ih seen
      · rw [dedupeAux, if_neg h]
        refine List.nodup_cons.mpr ⟨fun hy => ?_, ih (y :: seen)⟩
        exact ((mem_dedupeAux ys (y :: seen) y).mp hy).2 (List.mem_cons_self y seen)

theorem gfna_error (env : ScrapeEnv) (symbol name : String) (cp : Rat)
    (sd ed : Option String) (e : String) (h : env.aggExc = some e) :
    get_free_news_analysis env symbol name cp sd ed =
      { drivers := ["Unable to fetch news: " ++ e], sources := [], method := "error" } := by
  simp [get_free_news_analysis, h]

theorem gfna_method (env : ScrapeEnv) (symbol name : String) (cp : Rat)
    (sd ed : Option String) (h : env.aggExc = none) :
    (get_free_news_analysis env symbol name cp sd ed).method = "free_scraping" := by
  simp only [get_free_news_analysis, h]
  split <;> rfl

theorem gfna_fallback (env : ScrapeEnv) (symbol name : String) (cp : Rat)
    (sd ed : Option String)
    (hexc : env.aggExc = none)
    (hy : scrape_yahoo_finance_news symbol name env.yahooFetch = none)
    (hg : scrape_google_news name cp env.googleFetch = none)
    (hf : scrape_finviz_news symbol name env.finvizFetch = none) :
    get_free_news_analysis env symbol name cp sd ed =
      { drivers :=
          [name ++ " " ++ (if 0 < cp then "increased" else "decreased") ++ " by " ++
             formatTwoDec (ratAbs cp) ++ "% during this period.",
           "Check financial news sources for detailed analysis of market conditions.",
           "Consider broader market trends and sector-specific factors."],
        sources :=
          ["Yahoo Finance - https://finance.yahoo.com/quote/" ++ symbol,
           "Google Finance - https://www.google.com/finance/quote/" ++
             (String.mk (symbol.data.filter (fun c => c != '^'))) ++ ":INDEXSP"],
        method := "free_scraping" } := by
  simp [get_free_news_analysis, hexc, hy, hg, hf, dedupeKeepFirst, dedupeAux]

theorem mapFrom_length {α β : Type} (f : Nat → α → β) :
    ∀ (l : List α) (i : Nat), (mapFrom f i l).length = l.length := by
  intro l
  induction l with
  | nil => intro i; rfl
  | cons a rest ih => intro i; simp [mapFrom, ih]

theorem mapFrom_get {α β : Type} (f : Nat → α → β) :
    ∀ (l : List α) (i j : Nat) (hj : j < l.length) (hl : j < (mapFrom f i l).length),
      (mapFrom f i l).get ⟨j, hl⟩ = f (i + j) (l.get ⟨j, hj⟩) := by
  intro l
  induction l with
  | nil => intro i j hj hl; exact absurd hj (Nat.not_lt_zero j)
  | cons a rest ih =>
      intro i j hj hl
      cases j with
      | zero => simp [mapFrom]
      | succ k =>
          have hj2 : k < rest.length := Nat.lt_of_succ_lt_succ hj
          have hl2 : k < (mapFrom f (i + 1) rest).length := by
            rw [mapFrom_length]; exact hj2
          have hstep : (mapFrom f i (a :: rest)).get ⟨k + 1, hl⟩ =
              (mapFrom f (i + 1) rest).get ⟨k, hl2⟩ := rfl
          rw [hstep, ih (i + 1) k hj2 hl2]
          have harith : i + 1 + k = i + (k + 1) := by omega
          rw [harith]
          rfl

theorem analyzeLoop_ok (env : Nat → ScrapeEnv) (sd ed : Option String) :
    ∀ (symbols : List SymbolData) (i : Nat),
      (∀ s ∈ symbols, s.symbol.isSome ∧ s.name.isSome ∧ s.changePercent.isSome) →
      analyzeLoop env sd ed i symbols = .ok (mapFrom (respItem env sd ed) i symbols) := by
  intro symbols
  induction symbols with
  | nil => intro i h; rfl
  | cons s rest ih =>
      intro i h
      obtain ⟨hs, hn, hc⟩ := h s (List.mem_cons_self s rest)
      obtain ⟨sym, hsym⟩ := Option.isSome_iff_exists.mp hs
      obtain ⟨nm, hnm⟩ := Option.isSome_iff_exists.mp hn
      obtain ⟨cp, hcp⟩ := Option.isSome_iff_exists.mp hc
      have ihh := ih (i + 1) (fun t ht => h t (List.mem_cons_of_mem _ ht))
      simp [analyzeLoop, hsym, hnm, hcp, ihh, mapFrom, respItem]

theorem analyzeLoop_error (env : Nat → ScrapeEnv) (sd ed : Option String) :
    ∀ (symbols : List SymbolData) (i : Nat),
      (∃ s ∈ symbols, s.symbol = none ∨ s.name = none ∨ s.changePercent = none) →
      ∃ k, (k = "symbol" ∨ k = "name" ∨ k = "changePercent") ∧
        analyzeLoop env sd ed i symbols = .error (keyErrorText k) := by
  intro symbols
  induction symbols with
  | nil => rintro i ⟨s, hs, _⟩; cases hs
  | cons s rest ih =>
      intro i h
      cases hsym : s.symbol with
      | none => exact ⟨"symbol", Or.inl rfl, by simp [analyzeLoop, hsym]⟩
      | some sym =>
          cases hnm : s.name with
          | none => exact ⟨"name", Or.inr (Or.inl rfl), by simp [analyzeLoop, hsym, hnm]⟩
          | some nm =>
              cases hcp : s.changePercent with
              | none =>
                  exact ⟨"changePercent", Or.inr (Or.inr rfl),
                    by simp [analyzeLoop, hsym, hnm, hcp]⟩
              | some cp =>
                  obtain ⟨t, ht, hbad⟩ := h
                  rcases List.mem_cons.mp ht with rfl | ht
                  · rcases hbad with hb | hb | hb <;> simp_all
                  · obtain ⟨k, hk, hloop⟩ := ih (i + 1) ⟨t, ht, hbad⟩
                    exact ⟨k, hk, by simp [analyzeLoop, hsym, hnm, hcp, hloop]⟩

theorem gfna_dates (env : ScrapeEnv) (symbol name : String) (cp : Rat)
    (sd ed : Option String) :
    get_free_news_analysis env symbol name cp sd ed =
      get_free_news_analysis env symbol name cp none none := rfl

theorem analyzeLoop_dates (env : Nat → ScrapeEnv) (sd ed : Option String) :
    ∀ (symbols : List SymbolData) (i : Nat),
      analyzeLoop env sd ed i symbols = analyzeLoop env none none i symbols := by
  intro symbols
  induction symbols with
  | nil => intro i; rfl
  | cons s rest ih =>
      intro i
      cases hsym : s.symbol with
      | none => simp [analyzeLoop, hsym]
      | some sym =>
          cases hnm : s.name with
          | none => simp [analyzeLoop, hsym, hnm]
          | some nm =>
              cases hcp : s.changePercent with
              | none => simp [analyzeLoop, hsym, hnm, hcp]
              | some cp => simp [analyzeLoop, hsym, hnm, hcp, ih (i + 1), gfna_dates]

theorem digitChar_isDigit_of_lt : ∀ m < 10, (digitChar m).isDigit = true := by decide

theorem digitChar_mod_isDigit (n : Nat) : (digitChar (n % 10)).isDigit = true :=
  digitChar_isDigit_of_lt (n % 10) (Nat.mod_lt n (by norm_num))

theorem consumeDigits_exact (k : Nat) (cs rest : List Char) (hlen : cs.length = k)
    (h : ∀ c ∈ cs, c.isDigit = true) : consumeDigits k (cs ++ rest) = some rest := by
  subst hlen
  induction cs with
  | nil => rfl
  | cons c cs ih =>
      simp only [List.length_cons, List.cons_append, consumeDigits]
      rw [if_pos (h c (List.mem_cons_self c cs))]
      exact ih (fun d hd => h d (List.mem_cons_of_mem _ hd))

theorem toDigitsL2_digits (n : Nat) : ∀ c ∈ toDigitsL2 n, c.isDigit = true := by
  intro c hc
  simp only [toDigitsL2, List.mem_cons, List.not_mem_nil, or_false] at hc
  rcases hc with rfl | rfl <;> exact digitChar_mod_isDigit _

theorem toDigitsL4_digits (n : Nat) : ∀ c ∈ toDigitsL4 n, c.isDigit = true := by
  intro c hc
  simp only [toDigitsL4, List.mem_cons, List.not_mem_nil, or_false] at hc
  rcases hc with rfl | rfl | rfl | rfl <;> exact digitChar_mod_isDigit _

theorem toDigitsL6_digits (n : Nat) : ∀ c ∈ toDigitsL6 n, c.isDigit = true := by
  intro c hc
  simp only [toDigitsL6, List.mem_cons, List.not_mem_nil, or_false] at hc
  rcases hc with rfl | rfl | rfl | rfl | rfl | rfl <;> exact digitChar_mod_isDigit _

/-- C10: the health endpoint is a pure function of the process clock — it
performs no network access, so its payload is independent of the
reachability of the scraped sites — and for every clock value it returns
status healthy, method free_scraping, exactly the three source names, and a
timestamp that the ISO-8601 recogniser accepts. -/
theorem health_check_ok (t : PyDateTime) :
    (health_check t).status = "healthy" ∧
    (health_check t).method = "free_scraping" ∧
    (health_check t).sources = ["Yahoo Finance", "Google News", "Finviz"] ∧
    isIso8601Like (health_check t).timestamp = true := by
  refine ⟨rfl, rfl, rfl, ?_⟩
  show isIso8601Like (isoformat t) = true
  have hdata : (isoformat t).data =
      toDigitsL4 t.year ++ '-' :: (toDigitsL2 t.month ++ '-' :: (toDigitsL2 t.day ++
        'T' :: (toDigitsL2 t.hour ++ ':' :: (toDigitsL2 t.minute ++ ':' :: (toDigitsL2 t.second ++
        (if t.microsecond = 0 then [] else '.' :: toDigitsL6 t.microsecond)))))) := by
    simp [isoformat, List.append_assoc]
  have h4 : ∀ rest : List Char, consumeDigits 4 (toDigitsL4 t.year ++ rest) = some rest :=
    fun rest => consumeDigits_exact 4 _ rest rfl (toDigitsL4_digits t.year)
  have h2 : ∀ (n : Nat) (rest : List Char), consumeDigits 2 (toDigitsL2 n ++ rest) = some rest :=
    fun n rest => consumeDigits_exact 2 _ rest rfl (toDigitsL2_digits n)
  have hlit : ∀ (x : Char) (rest : List Char), consumeLit x (x :: rest) = some rest :=
    fun x rest => by simp [consumeLit]
  have h6 : consumeDigits 6 (toDigitsL6 t.microsecond) = some [] := by
    have hx := consumeDigits_exact 6 (toDigitsL6 t.microsecond) [] rfl
      (toDigitsL6_digits t.microsecond)
    simpa using hx
  rw [isIso8601Like, hdata]
  rw [h4, Option.some_bind, hlit, Option.some_bind, h2, Option.some_bind, hlit,
    Option.some_bind, h2, Option.some_bind, hlit, Option.some_bind, h2,
    Option.some_bind, hlit, Option.some_bind, h2, Option.some_bind, hlit]
  have h2self : consumeDigits 2 (toDigitsL2 t.second) = some [] := by
    have hx := h2 t.second []
    simpa using hx
  by_cases hm : t.microsecond = 0
  · simp [h2, h2self, hm, isoFracOk]
  · simp [h2, h2self, hm, isoFracOk, h6]

/-- C7: each of the three scrapers is a total function of its fetch outcome
— no exception ever propagates to the aggregator — an exception raised
during fetch or parse becomes no result, and an extraction producing zero
drivers becomes no result. -/
theorem scrapers_no_result (symbol name : String) (cp : Rat) (e : String)
    (arts : List Article) (garts : List GArticle) (page : FinvizPage) :
    scrape_yahoo_finance_news symbol name (Except.error e) = none ∧
    scrape_google_news name cp (Except.error e) = none ∧
    scrape_finviz_news symbol name (Except.error e) = none ∧
    ((yahooExtract arts).1 = [] →
      scrape_yahoo_finance_news symbol name (Except.ok arts) = none) ∧
    ((googleExtract garts).1 = [] →
      scrape_google_news name cp (Except.ok garts) = none) ∧
    ((finvizExtract page).1 = [] →
      scrape_finviz_news symbol name (Except.ok page) = none) := by
  refine ⟨rfl, rfl, rfl, ?_, ?_, ?_⟩ <;> intro h <;>
    simp [scrape_yahoo_finance_news, scrape_google_news, scrape_finviz_news, h]

/-- Witness for C7 at concrete fetch outcomes: a raised exception and pages
with zero extractable elements. -/
theorem scrapers_no_result_witness :
    scrape_yahoo_finance_news "^GSPC" "S&P 500" (Except.error "timeout") = none ∧
    scrape_google_news "S&P 500" (5/2) (Except.error "timeout") = none ∧
    scrape_finviz_news "^GSPC" "S&P 500" (Except.error "timeout") = none ∧
    scrape_yahoo_finance_news "^GSPC" "S&P 500" (Except.ok []) = none ∧
    scrape_google_news "S&P 500" (5/2) (Except.ok []) = none ∧
    scrape_finviz_news "^GSPC" "S&P 500" (Except.ok { newsTable := none }) = none := by
  have h := scrapers_no_result "^GSPC" "S&P 500" (5/2) "timeout" [] [] { newsTable := none }
  exact ⟨h.1, h.2.1, h.2.2.1, h.2.2.2.1 rfl, h.2.2.2.2.1 rfl, h.2.2.2.2.2 rfl⟩

/-- C5: a request whose symbols field is missing or is an empty array gets
a 400 response with the fixed error body, whatever the other fields are;
the response does not depend on the scrape environment, so no scraping
work contributes to it. -/
theorem analyze_empty_symbols_400 (env : Nat → ScrapeEnv) (req : AnalyzeRequest)
    (h : req.symbols = none ∨ req.symbols = some []) :
    analyze_market env req = HttpResponse.clientError "No symbols provided" ∧
    statusOf (analyze_market env req) = 400 := by
  have hresp : analyze_market env req = HttpResponse.clientError "No symbols provided" := by
    rcases h with h | h <;> simp [analyze_market, h]
  exact ⟨hresp, by rw [hresp]; rfl⟩

/-- Witness for C5 at a concrete request carrying an empty symbols array
and a date range. -/
theorem analyze_empty_symbols_400_witness :
    analyze_market (fun _ => envNoNews)
        { symbols := some [], startDate := some "2024-01-01", endDate := some "2024-01-08" } =
      HttpResponse.clientError "No symbols provided" ∧
    statusOf (analyze_market (fun _ => envNoNews)
        { symbols := some [], startDate := some "2024-01-01", endDate := some "2024-01-08" }) =
      400 :=
  analyze_empty_symbols_400 (fun _ => envNoNews) _ (Or.inr rfl)

/-- The rational 3.14, given in reduced form with literal fields. -/
def cp314 : Rat := { num := 157, den := 50 }

/-- The rational minus two, given with literal fields. -/
def cpNeg2 : Rat := { num := -2 }

/-- The rational 2.5, given in reduced form with literal fields. -/
def cp25 : Rat := { num := 5, den := 2 }

theorem ratAbs_eq_abs (q : Rat) : ratAbs q = |q| := by
  rw [ratAbs]
  by_cases h : q.num < 0
  · rw [if_pos h, abs_of_neg (Rat.num_neg.mp h)]
  · rw [if_neg h, abs_of_nonneg (Rat.num_nonneg.mp (Int.not_lt.mp h))]

/-- C2: when all three scrapers return no result (and the aggregation body
raises nothing), the result is the fallback: a non-empty drivers list whose
first sentence contains the instrument name, the word increased when
changePercent is positive and decreased otherwise (zero included), and the
absolute value of changePercent formatted to two decimals; its method is
free_scraping, not error. -/
theorem fallback_driver (env : ScrapeEnv) (symbol name : String) (cp : Rat)
    (sd ed : Option String)
    (hexc : env.aggExc = none)
    (hy : scrape_yahoo_finance_news symbol name env.yahooFetch = none)
    (hg : scrape_google_news name cp env.googleFetch = none)
    (hf : scrape_finviz_news symbol name env.finvizFetch = none) :
    (get_free_news_analysis env symbol name cp sd ed).drivers ≠ [] ∧
    strContains ((get_free_news_analysis env symbol name cp sd ed).drivers.headI) name = true ∧
    (0 < cp →
      strContains ((get_free_news_analysis env symbol name cp sd ed).drivers.headI)
        "increased" = true) ∧
    (¬ 0 < cp →
      strContains ((get_free_news_analysis env symbol name cp sd ed).drivers.headI)
        "decreased" = true) ∧
    strContains ((get_free_news_analysis env symbol name cp sd ed).drivers.headI)
      (formatTwoDec |cp|) = true ∧
    (get_free_news_analysis env symbol name cp sd ed).method = "free_scraping" := by
  rw [gfna_fallback env symbol name cp sd ed hexc hy hg hf]
  refine ⟨by simp, ?_, ?_, ?_, ?_, rfl⟩
  · apply strContains_of_data _ _ ([] : List Char)
      ((" " ++ ((if 0 < cp then "increased" else "decreased") ++ (" by " ++
        (formatTwoDec (ratAbs cp) ++ "% during this period.")))).data)
    simp [List.headI, String.data_append, List.append_assoc]
  · intro hpos
    rw [if_pos hpos]
    apply strContains_of_data _ _ ((name ++ " ").data)
      ((" by " ++ (formatTwoDec (ratAbs cp) ++ "% during this period.")).data)
    simp [List.headI, String.data_append, List.append_assoc]
  · intro hneg
    rw [if_neg hneg]
    apply strContains_of_data _ _ ((name ++ " ").data)
      ((" by " ++ (formatTwoDec (ratAbs cp) ++ "% during this period.")).data)
    simp [List.headI, String.data_append, List.append_assoc]
  · rw [← ratAbs_eq_abs]
    apply strContains_of_data _ _
      ((name ++ " " ++ (if 0 < cp then "increased" else "decreased") ++ " by ").data)
      ("% during this period.".data)
    simp [List.headI, String.data_append, List.append_assoc]

/-- Witness for C2 at Test Index with changePercent 3.14 (increased, 3.14)
and with changePercent minus two (decreased, 2.00), all scrapers failing. -/
theorem fallback_driver_witness :
    (get_free_news_analysis envNoNews "^GSPC" "Test Index" cp314 none none).drivers ≠ [] ∧
    strContains ((get_free_news_analysis envNoNews "^GSPC" "Test Index" cp314 none none).drivers.headI)
      "Test Index" = true ∧
    strContains ((get_free_news_analysis envNoNews "^GSPC" "Test Index" cp314 none none).drivers.headI)
      "increased" = true ∧
    strContains ((get_free_news_analysis envNoNews "^GSPC" "Test Index" cp314 none none).drivers.headI)
      "3.14" = true ∧
    (get_free_news_analysis envNoNews "^GSPC" "Test Index" cp314 none none).method =
      "free_scraping" ∧
    strContains ((get_free_news_analysis envNoNews "^GSPC" "Test Index" cpNeg2 none none).drivers.headI)
      "decreased" = true ∧
    strContains ((get_free_news_analysis envNoNews "^GSPC" "Test Index" cpNeg2 none none).drivers.headI)
      "2.00" = true := by
  have h1 := fallback_driver envNoNews "^GSPC" "Test Index" cp314 none none rfl rfl rfl rfl
  have h2 := fallback_driver envNoNews "^GSPC" "Test Index" cpNeg2 none none rfl rfl rfl rfl
  have ha1 : |cp314| = cp314 := abs_of_pos (by decide)
  have ha2 : |cpNeg2| = -cpNeg2 := abs_of_neg (by decide)
  have e1 : formatTwoDec |cp314| = "3.14" := by rw [ha1]; decide
  have e2 : formatTwoDec |cpNeg2| = "2.00" := by rw [ha2]; decide
  exact ⟨h1.1, h1.2.1, h1.2.2.1 (by decide), e1 ▸ h1.2.2.2.2.1, h1.2.2.2.2.2,
    h2.2.2.2.1 (by decide), e2 ▸ h2.2.2.2.2.1⟩

/-- C3: the merge step deduplicates by exact string equality keeping first
occurrences in order (with the spec example), deduplication is an
order-preserving duplicate-free sublist keeping exactly the elements, and
every aggregator result has at most 3 drivers and at most 5 sources. -/
theorem merge_dedupe_truncate (env : ScrapeEnv) (symbol name : String) (cp : Rat)
    (sd ed : Option String) :
    dedupeKeepFirst ["A", "B", "A", "C"] = ["A", "B", "C"] ∧
    (∀ l : List String, (dedupeKeepFirst l).Sublist l ∧ (dedupeKeepFirst l).Nodup ∧
      ∀ x, x ∈ dedupeKeepFirst l ↔ x ∈ l) ∧
    (get_free_news_analysis env symbol name cp sd ed).drivers.length ≤ 3 ∧
    (get_free_news_analysis env symbol name cp sd ed).sources.length ≤ 5 := by
  refine ⟨by decide, ?_, ?_, ?_⟩
  · intro l
    refine ⟨dedupeAux_sublist l [], nodup_dedupeAux l [], fun x => ?_⟩
    have h := mem_dedupeAux l [] x
    simpa [dedupeKeepFirst] using h
  · cases henv : env.aggExc with
    | some e => rw [gfna_error env symbol name cp sd ed e henv]; simp
    | none =>
        simp only [get_free_news_analysis, henv]
        split
        · simp
        · simp only [List.length_take]
          exact Nat.min_le_left _ _
  · cases henv : env.aggExc with
    | some e => rw [gfna_error env symbol name cp sd ed e henv]; simp
    | none =>
        simp only [get_free_news_analysis, henv]
        split
        · simp
        · simp only [List.length_take]
          exact Nat.min_le_left _ _

/-- C4 counterexample: a fetched page whose one h3 element has a title but
no anchor makes the first scraper return a driver with no source, and the
aggregator then returns method free_scraping with an empty sources list —
so sources can be empty outside the error path. -/
theorem free_scraping_empty_sources :
    (get_free_news_analysis envTitleOnly "^GSPC" "S&P 500" cp25 none none).method =
      "free_scraping" ∧
    (get_free_news_analysis envTitleOnly "^GSPC" "S&P 500" cp25 none none).sources = [] ∧
    (get_free_news_analysis envTitleOnly "^GSPC" "S&P 500" cp25 none none).drivers =
      ["Headline"] := by
  decide

/-- C4 amended: every aggregator result has a non-empty drivers list; the
error path always has an empty sources list, and when all three scrapers
return no result the fallback supplies a non-empty sources list; but a
method free_scraping result can also have an empty sources list, when the
scrapers extract titles without links. -/
theorem aggregator_output_guarantee (env : ScrapeEnv) (symbol name : String) (cp : Rat)
    (sd ed : Option String) :
    (get_free_news_analysis env symbol name cp sd ed).drivers ≠ [] ∧
    (∀ e, env.aggExc = some e →
      (get_free_news_analysis env symbol name cp sd ed).method = "error" ∧
      (get_free_news_analysis env symbol name cp sd ed).sources = []) ∧
    (env.aggExc = none →
      scrape_yahoo_finance_news symbol name env.yahooFetch = none →
      scrape_google_news name cp env.googleFetch = none →
      scrape_finviz_news symbol name env.finvizFetch = none →
      (get_free_news_analysis env symbol name cp sd ed).sources ≠ [] ∧
      (get_free_news_analysis env symbol name cp sd ed).method = "free_scraping") := by
  refine ⟨?_, ?_, ?_⟩
  · cases henv : env.aggExc with
    | some e => rw [gfna_error env symbol name cp sd ed e henv]; simp
    | none =>
        simp only [get_free_news_analysis, henv]
        split
        · simp
        · rename_i h
          simpa using h
  · intro e he
    rw [gfna_error env symbol name cp sd ed e he]
    exact ⟨rfl, rfl⟩
  · intro he hy hg hf
    rw [gfna_fallback env symbol name cp sd ed he hy hg hf]
    exact ⟨by simp, rfl⟩

/-- Witness for C4 amended, at an environment whose aggregation raises and
at one where every scraper fails. -/
theorem aggregator_output_guarantee_witness :
    (get_free_news_analysis envAggFail "^GSPC" "S&P 500" cp25 none none).method = "error" ∧
    (get_free_news_analysis envAggFail "^GSPC" "S&P 500" cp25 none none).sources = [] ∧
    (get_free_news_analysis envNoNews "^GSPC" "S&P 500" cp25 none none).sources ≠ [] ∧
    (get_free_news_analysis envNoNews "^GSPC" "S&P 500" cp25 none none).drivers ≠ [] := by
  have h1 := (aggregator_output_guarantee envAggFail "^GSPC" "S&P 500" cp25 none none).2.1
    "boom" rfl
  have h2 := (aggregator_output_guarantee envNoNews "^GSPC" "S&P 500" cp25 none none).2.2
    rfl rfl rfl rfl
  have h3 := (aggregator_output_guarantee envNoNews "^GSPC" "S&P 500" cp25 none none).1
  exact ⟨h1.1, h1.2, h2.1, h3⟩

/-- C1: for a non-empty symbols list whose elements all carry the three
keys, the response is a 200 whose analyses array has exactly the input
length, item i echoing the symbol, name and changePercent of input i. -/
theorem analyze_length_order (env : Nat → ScrapeEnv) (symbols : List SymbolData)
    (sd ed : Option String) (hne : symbols ≠ [])
    (hc : ∀ s ∈ symbols, s.symbol.isSome ∧ s.name.isSome ∧ s.changePercent.isSome) :
    ∃ l, analyze_market env { symbols := some symbols, startDate := sd, endDate := ed } =
        HttpResponse.ok l ∧
      l.length = symbols.length ∧
      ∀ (j : Nat) (hj : j < symbols.length) (hl : j < l.length),
        (symbols.get ⟨j, hj⟩).symbol = some ((l.get ⟨j, hl⟩).symbol) ∧
        (symbols.get ⟨j, hj⟩).name = some ((l.get ⟨j, hl⟩).name) ∧
        (symbols.get ⟨j, hj⟩).changePercent = some ((l.get ⟨j, hl⟩).changePercent) := by
  have hempty : symbols.isEmpty = false := by
    cases symbols with
    | nil => exact absurd rfl hne
    | cons s rest => rfl
  have hloop := analyzeLoop_ok env sd ed symbols 0 hc
  refine ⟨mapFrom (respItem env sd ed) 0 symbols, ?_, mapFrom_length _ _ _, ?_⟩
  · simp [analyze_market, hempty, hloop]
  · intro j hj hl
    rw [mapFrom_get (respItem env sd ed) symbols 0 j hj hl]
    obtain ⟨hs, hn, hcp⟩ := hc (symbols.get ⟨j, hj⟩) (List.get_mem symbols j hj)
    obtain ⟨sym, hsym⟩ := Option.isSome_iff_exists.mp hs
    obtain ⟨nm, hnm⟩ := Option.isSome_iff_exists.mp hn
    obtain ⟨cp, hcp2⟩ := Option.isSome_iff_exists.mp hcp
    simp only [List.get_eq_getElem] at hsym hnm hcp2
    simp [respItem, hsym, hnm, hcp2]

/-- An instrument with all keys present. -/
def symA : SymbolData :=
  { symbol := some "^GSPC", name := some "S&P 500", changePercent := some cp25 }

/-- A second complete instrument. -/
def symB : SymbolData :=
  { symbol := some "^IXIC", name := some "Nasdaq", changePercent := some cpNeg2 }

/-- A third complete instrument. -/
def symC : SymbolData :=
  { symbol := some "GC=F", name := some "Gold", changePercent := some cp314 }

/-- An instrument object lacking every key. -/
def symBad : SymbolData := { symbol := none, name := none, changePercent := none }

/-- Witness for C1 at a concrete two-instrument request. -/
theorem analyze_length_order_witness :
    ∃ l, analyze_market (fun _ => envNoNews)
        { symbols := some [symA, symB], startDate := some "2024-01-01",
          endDate := some "2024-01-08" } = HttpResponse.ok l ∧
      l.length = 2 := by
  obtain ⟨l, h1, h2, h3⟩ := analyze_length_order (fun _ => envNoNews) [symA, symB]
    (some "2024-01-01") (some "2024-01-08") (by decide) (by decide)
  exact ⟨l, h1, h2.trans rfl⟩

/-- C6: when the aggregation body raises for instrument i of a batch whose
elements all carry their keys, the batch still succeeds: every instrument
gets its item, item i carries exactly one driver with the exception text,
an empty sources list and method error, and every other instrument whose
aggregation does not raise gets method free_scraping. -/
theorem error_isolation (env : Nat → ScrapeEnv) (symbols : List SymbolData)
    (sd ed : Option String) (i : Nat) (e : String)
    (hc : ∀ s ∈ symbols, s.symbol.isSome ∧ s.name.isSome ∧ s.changePercent.isSome)
    (hi : i < symbols.length)
    (hexc : (env i).aggExc = some e)
    (hothers : ∀ j, j < symbols.length → j ≠ i → (env j).aggExc = none) :
    ∃ l, analyze_market env { symbols := some symbols, startDate := sd, endDate := ed } =
        HttpResponse.ok l ∧
      l.length = symbols.length ∧
      (∀ hl : i < l.length,
        (l.get ⟨i, hl⟩).analysis.drivers = ["Unable to fetch news: " ++ e] ∧
        (l.get ⟨i, hl⟩).analysis.sources = [] ∧
        (l.get ⟨i, hl⟩).analysis.method = "error") ∧
      (∀ (j : Nat) (hj : j < symbols.length) (hl : j < l.length), j ≠ i →
        (l.get ⟨j, hl⟩).analysis.method = "free_scraping") := by
  have hempty : symbols.isEmpty = false := by
    cases symbols with
    | nil => exact absurd hi (by simp)
    | cons s rest => rfl
  have hloop := analyzeLoop_ok env sd ed symbols 0 hc
  refine ⟨mapFrom (respItem env sd ed) 0 symbols,
    by simp [analyze_market, hempty, hloop], mapFrom_length _ _ _, ?_, ?_⟩
  · intro hl
    rw [mapFrom_get (respItem env sd ed) symbols 0 i hi hl]
    have herr := gfna_error (env (0 + i)) ((symbols.get ⟨i, hi⟩).symbol.getD "")
      ((symbols.get ⟨i, hi⟩).name.getD "") ((symbols.get ⟨i, hi⟩).changePercent.getD 0)
      sd ed e (by simpa using hexc)
    simp only [Nat.zero_add, List.get_eq_getElem] at herr
    simp [respItem, herr]
  · intro j hj hl hji
    rw [mapFrom_get (respItem env sd ed) symbols 0 j hj hl]
    have hm := gfna_method (env (0 + j)) ((symbols.get ⟨j, hj⟩).symbol.getD "")
      ((symbols.get ⟨j, hj⟩).name.getD "") ((symbols.get ⟨j, hj⟩).changePercent.getD 0)
      sd ed (by simpa using hothers j hj hji)
    simp only [Nat.zero_add, List.get_eq_getElem] at hm
    simpa [respItem] using hm

/-- Environment for the C6 witness: the aggregation for instrument 1
raises, the other instruments merely find no news. -/
def envSeq : Nat → ScrapeEnv := fun j => if j = 1 then envAggFail else envNoNews

/-- Witness for C6 at a three-instrument batch whose second aggregation
raises: the batch succeeds with three items and item 1 has method error. -/
theorem error_isolation_witness :
    ∃ l, analyze_market envSeq
        { symbols := some [symA, symB, symC], startDate := none, endDate := none } =
      HttpResponse.ok l ∧
      l.length = 3 ∧
      (∀ hl : 1 < l.length, (l.get ⟨1, hl⟩).analysis.method = "error") := by
  obtain ⟨l, h1, h2, h3, h4⟩ := error_isolation envSeq [symA, symB, symC] none none 1 "boom"
    (by decide) (by decide) (by decide) (by decide)
  exact ⟨l, h1, h2.trans rfl, fun hl => (h3 hl).2.2⟩

/-- C9: a non-empty symbols list containing an element that lacks one of
the three keys makes the whole request fail with a 500 whose error field is
the KeyError text (containing the key name); the response carries no
analyses, so items computed for earlier instruments are discarded. -/
theorem missing_key_500 (env : Nat → ScrapeEnv) (symbols : List SymbolData)
    (sd ed : Option String)
    (h : ∃ s ∈ symbols, s.symbol = none ∨ s.name = none ∨ s.changePercent = none) :
    ∃ k, (k = "symbol" ∨ k = "name" ∨ k = "changePercent") ∧
      analyze_market env { symbols := some symbols, startDate := sd, endDate := ed } =
        HttpResponse.serverError (keyErrorText k) ∧
      strContains (keyErrorText k) k = true ∧
      statusOf (analyze_market env
        { symbols := some symbols, startDate := sd, endDate := ed }) = 500 := by
  have hempty : symbols.isEmpty = false := by
    obtain ⟨s, hs, _⟩ := h
    cases symbols with
    | nil => cases hs
    | cons a rest => rfl
  obtain ⟨k, hk, hloop⟩ := analyzeLoop_error env sd ed symbols 0 h
  have hresp : analyze_market env { symbols := some symbols, startDate := sd, endDate := ed } =
      HttpResponse.serverError (keyErrorText k) := by
    simp [analyze_market, hempty, hloop]
  refine ⟨k, hk, hresp, ?_, by rw [hresp]; rfl⟩
  apply strContains_of_data _ _ (("\x27" : String).data) (("\x27" : String).data)
  simp [keyErrorText, String.data_append]

/-- Witness for C9 at a two-element list whose second element lacks every
key. -/
theorem missing_key_500_witness :
    ∃ k, (k = "symbol" ∨ k = "name" ∨ k = "changePercent") ∧
      analyze_market (fun _ => envNoNews)
          { symbols := some [symA, symBad], startDate := none, endDate := none } =
        HttpResponse.serverError (keyErrorText k) ∧
      strContains (keyErrorText k) k = true ∧
      statusOf (analyze_market (fun _ => envNoNews)
        { symbols := some [symA, symBad], startDate := none, endDate := none }) = 500 :=
  missing_key_500 (fun _ => envNoNews) [symA, symBad] none none
    ⟨symBad, by simp, Or.inl rfl⟩

/-- C8 amended: two analyze requests identical except in startDate and
endDate produce identical responses under the same scrape environment —
the dates influence nothing, and in particular they are not echoed back. -/
theorem dates_no_effect (env : Nat → ScrapeEnv) (symbols : Option (List SymbolData))
    (sd ed sd2 ed2 : Option String) :
    analyze_market env { symbols := symbols, startDate := sd, endDate := ed } =
      analyze_market env { symbols := symbols, startDate := sd2, endDate := ed2 } := by
  simp only [analyze_market]
  rw [analyzeLoop_dates env sd ed (symbols.getD []) 0,
    analyzeLoop_dates env sd2 ed2 (symbols.getD []) 0]

/-- The instrument of the request used by the echo counterexample. -/
def symAlpha : SymbolData :=
  { symbol := some "AAA", name := some "Alpha Index", changePercent := some cp25 }

/-- A one-instrument request carrying a date range. -/
def reqWithDates : AnalyzeRequest :=
  { symbols := some [symAlpha],
    startDate := some "2024-01-01", endDate := some "2024-01-08" }

set_option maxRecDepth 40000

/-- C8 counterexample: the date range is not echoed back to the caller —
the rendered body of the response to a request carrying a date range
contains neither date string. -/
theorem dates_not_echoed :
    strContains (renderResponse (analyze_market (fun _ => envNoNews) reqWithDates))
      "2024-01-01" = false ∧
    strContains (renderResponse (analyze_market (fun _ => envNoNews) reqWithDates))
      "2024-01-08" = false := by
  decide
